import Mathlib

/-!
Shallow embedding of the server-creation reconciliation loop of the
terraform-provider-faxter repository (src/resource_server.go), together with
its status-fetch helper getServerStatus.  Durations are modelled in abstract
time units (the code uses seconds: pollTimeout = 300, pollInterval = 10);
each loop iteration is driven by an `Iter` record giving the cancellation
flag observed at that iteration, the HTTP world the fetch sees, and the time
the fetch plus per-iteration processing consumes beyond the sleep.
-/

namespace Faxter

/-- The fields of `ResourceResponse` that `getServerStatus` reads
(src/resource_server.go lines 41-50): `status`, `properties.ip_addresses`,
`properties.request_floating_ip`. -/
structure ResourceResponse where
  name : String
  status : String
  ipAddresses : List String
  requestFloating : Bool
  deriving Repr, DecidableEq

/-- The outcome of one HTTP GET as seen by `getServerStatus`: the request
construction may fail (`c.newRequest`), the transport may fail
(`c.httpClient.Do`), or a response with a numeric code, status text and body
arrives, whose body either JSON-decodes to a `ResourceResponse` or fails to
decode with a message. -/
inductive HttpReply where
  | reqError (msg : String)
  | transportError (msg : String)
  | response (code : Nat) (statusText : String) (body : String)
      (decoded : Except String ResourceResponse)
  deriving Repr

/-- The distinct error values `getServerStatus` can return, one constructor
per `return` site with a non-nil error (src/resource_server.go lines
261-293).  `notFound` carries the server name, mirroring
`fmt.Errorf("server ... not found", name)`; `httpFail` carries the HTTP
status text and body, mirroring the non-200 error; `decodeErr` mirrors the
JSON decode error. -/
inductive FetchError where
  | requestErr (msg : String)
  | transportErr (msg : String)
  | notFound (name : String)
  | httpFail (statusText : String) (body : String)
  | decodeErr (msg : String)
  deriving Repr, DecidableEq

/-- Whether a fetch error is the not-found condition. -/
def FetchError.isNotFound : FetchError → Bool
  | .notFound _ => true
  | _ => false

/-- Whether an HTTP reply is a response with code 404. -/
def HttpReply.is404 : HttpReply → Bool
  | .response code _ _ _ => code = 404
  | _ => false

/-- The quadruple `(string, []string, bool, error)` returned by
`getServerStatus`.  A Go nil slice is modelled as the empty list. -/
structure StatusResult where
  status : String
  addrs : List String
  floating : Bool
  err : Option FetchError
  deriving Repr, DecidableEq

/-- Embedding of `getServerStatus` (src/resource_server.go lines 261-300):
request-construction failure, transport failure, 404, non-200 and decode
failure each return `("", nil, true, err)`; a decoded 200 response returns
the status, IP addresses and floating flag with a nil error. -/
def getServerStatus (name : String) (reply : HttpReply) : StatusResult :=
  match reply with
  | .reqError m => ⟨"", [], true, some (.requestErr m)⟩
  | .transportError m => ⟨"", [], true, some (.transportErr m)⟩
  | .response code statusText body decoded =>
    if code = 404 then
      ⟨"", [], true, some (.notFound name)⟩
    else if code ≠ 200 then
      ⟨"", [], true, some (.httpFail statusText body)⟩
    else
      match decoded with
      | .error m => ⟨"", [], true, some (.decodeErr m)⟩
      | .ok r => ⟨r.status, r.ipAddresses, r.requestFloating, none⟩

/-- The slice of Terraform resource state that `resourceServerCreate`
touches after the create request: the resource id (`d.SetId`), the computed
`status` attribute and the computed `ip_addresses` attribute (`d.Set`).
`none` means the field has never been written. -/
structure RData where
  id : String
  status : Option String
  ipAddresses : Option (List String)
  deriving Repr, DecidableEq

/-- One iteration of input to the polling loop: whether `ctx.Err()` is
non-nil at this iteration, the HTTP world `getServerStatus` sees, and the
time consumed between the end of this iteration's sleep and this
iteration's deadline check (fetch plus processing). -/
structure Iter where
  ctxDone : Bool
  reply : HttpReply
  fetchDur : Nat
  deriving Repr

/-- The classified result of the polling loop, one constructor per exit
path of the loop in `resourceServerCreate` (src/resource_server.go lines
218-255).  `success` carries the IP address list set on the "online" exit;
`provisionFailed` and `timeout` carry the server name used in their error
messages. -/
inductive Outcome where
  | success (addrs : List String)
  | cancelled
  | fetchFailed (e : FetchError)
  | provisionFailed (name : String)
  | timeout (name : String)
  deriving Repr, DecidableEq

/-- Whether an outcome is the success exit. -/
def Outcome.isSuccess : Outcome → Bool
  | .success _ => true
  | _ => false

/-- Embedding of the `for` loop of `resourceServerCreate`
(src/resource_server.go lines 218-255).  Wall-clock time starts at the
moment `deadline := time.Now().Add(pollTimeout)` is evaluated, so the
deadline is the constant `deadline` argument.  Each iteration: sleep one
interval; if the context is done return the cancellation error without
fetching; fetch the status, returning its error if non-nil; otherwise
write the fetched status into state (`d.Set("status", ...)`); "online"
sets `ip_addresses` and exits with success; "error" exits with the
provision-failure error; otherwise, if the current time is strictly after
the deadline, exit with the timeout error; else loop.  The result carries
the outcome, the final state, the number of fetches issued, and the clock
at exit; `none` means the supplied iteration list was exhausted with the
loop still polling. -/
def runLoop (name : String) (interval deadline : Nat) :
    List Iter → Nat → Nat → RData → Option (Outcome × RData × Nat × Nat)
  | [], _, _, _ => none
  | it :: rest, clock, nfetch, st =>
    let clockS := clock + interval
    if it.ctxDone then
      some (.cancelled, st, nfetch, clockS)
    else
      let r := getServerStatus name it.reply
      let clockF := clockS + it.fetchDur
      match r.err with
      | some e => some (.fetchFailed e, st, nfetch + 1, clockF)
      | none =>
        let st1 := { st with status := some r.status }
        if r.status = "online" then
          some (.success r.addrs, { st1 with ipAddresses := some r.addrs },
                nfetch + 1, clockF)
        else if r.status = "error" then
          some (.provisionFailed name, st1, nfetch + 1, clockF)
        else if deadline < clockF then
          some (.timeout name, st1, nfetch + 1, clockF)
        else
          runLoop name interval deadline rest clockF (nfetch + 1) st1

/-- The poll timeout of the code, in seconds (`5 * time.Minute`). -/
def pollTimeout : Nat := 300

/-- The poll interval of the code, in seconds (`10 * time.Second`). -/
def pollInterval : Nat := 10

/-- Embedding of `resourceServerCreate` from the point where the create
response has been decoded (src/resource_server.go lines 211-255): the id is
set to the name returned by the create response (`d.SetId`), the deadline
is computed once, and the polling loop runs from clock 0 with no fetches
issued yet. -/
def resourceServerCreatePoll (name responseName : String)
    (interval timeout : Nat) (script : List Iter) (st0 : RData) :
    Option (Outcome × RData × Nat × Nat) :=
  runLoop name interval timeout script 0 0 { st0 with id := responseName }

/-- A 200 response whose body decodes to the given status and addresses,
with the floating flag false. -/
def okReply (s : String) (addrs : List String) : HttpReply :=
  .response 200 "200 OK" "" (.ok ⟨"srv", s, addrs, false⟩)

/-- Frame lemma for the loop: the loop never changes the resource id, it
changes `ip_addresses` only on the success exit, and any change to `status`
is to the status string of some successful fetch in the script. -/
theorem runLoop_state_frame (name : String) (interval deadline : Nat) :
    ∀ (script : List Iter) (clock nfetch : Nat) (st : RData)
      (o : Outcome) (st' : RData) (k c : Nat),
      runLoop name interval deadline script clock nfetch st = some (o, st', k, c) →
      st'.id = st.id ∧
      (o.isSuccess = false → st'.ipAddresses = st.ipAddresses) ∧
      (st'.status = st.status ∨
        ∃ it ∈ script, ∃ s a f, getServerStatus name it.reply = ⟨s, a, f, none⟩ ∧
          st'.status = some s) := by
  intro script
  induction script with
  | nil =>
    intro clock nfetch st o st' k c h
    simp [runLoop] at h
  | cons it rest ih =>
    intro clock nfetch st o st' k c h
    simp only [runLoop] at h
    by_cases hc : it.ctxDone
    · rw [if_pos hc] at h
      simp only [Option.some.injEq, Prod.mk.injEq] at h
      obtain ⟨-, hst, -, -⟩ := h
      subst hst
      exact ⟨rfl, fun _ => rfl, Or.inl rfl⟩
    · rw [if_neg hc] at h
      rcases hgs : getServerStatus name it.reply with ⟨s, a, f, e⟩
      rw [hgs] at h
      dsimp only at h
      cases e with
      | some err =>
        simp only [Option.some.injEq, Prod.mk.injEq] at h
        obtain ⟨-, hst, -, -⟩ := h
        subst hst
        exact ⟨rfl, fun _ => rfl, Or.inl rfl⟩
      | none =>
        by_cases hon : s = "online"
        · rw [if_pos hon] at h
          simp only [Option.some.injEq, Prod.mk.injEq] at h
          obtain ⟨ho, hst, -, -⟩ := h
          subst hst
          subst ho
          refine ⟨rfl, ?_, Or.inr ⟨it, List.mem_cons_self it rest, s, a, f, hgs, rfl⟩⟩
          intro hfalse
          simp [Outcome.isSuccess] at hfalse
        · rw [if_neg hon] at h
          by_cases herr2 : s = "error"
          · rw [if_pos herr2] at h
            simp only [Option.some.injEq, Prod.mk.injEq] at h
            obtain ⟨-, hst, -, -⟩ := h
            subst hst
            exact ⟨rfl, fun _ => rfl,
              Or.inr ⟨it, List.mem_cons_self it rest, s, a, f, hgs, rfl⟩⟩
          · rw [if_neg herr2] at h
            by_cases hdl : deadline < clock + interval + it.fetchDur
            · rw [if_pos hdl] at h
              simp only [Option.some.injEq, Prod.mk.injEq] at h
              obtain ⟨-, hst, -, -⟩ := h
              subst hst
              exact ⟨rfl, fun _ => rfl,
                Or.inr ⟨it, List.mem_cons_self it rest, s, a, f, hgs, rfl⟩⟩
            · rw [if_neg hdl] at h
              obtain ⟨hid, hip, hstat⟩ := ih _ _ _ _ _ _ _ h
              refine ⟨hid, hip, ?_⟩
              rcases hstat with hstat | ⟨it2, hmem, s2, a2, f2, hgs2, hst2⟩
              · exact Or.inr ⟨it, List.mem_cons_self it rest, s, a, f, hgs, hstat⟩
              · exact Or.inr ⟨it2, List.mem_cons.mpr (Or.inr hmem), s2, a2, f2, hgs2, hst2⟩

/-- C1: on any iteration whose status fetch returns "online", the loop
returns success with the returned addresses regardless of the current
clock — in particular even when the clock is already strictly past the
deadline — and the timeout exit is never taken on such an iteration:
classification strictly precedes the deadline check. -/
theorem runLoop_online_overrides_deadline (name : String) (interval deadline : Nat)
    (it : Iter) (rest : List Iter) (clock nfetch : Nat) (st : RData)
    (hc : it.ctxDone = false) (addrs : List String) (fl : Bool)
    (hr : getServerStatus name it.reply = ⟨"online", addrs, fl, none⟩) :
    runLoop name interval deadline (it :: rest) clock nfetch st
      = some (.success addrs,
              { st with status := some "online", ipAddresses := some addrs },
              nfetch + 1, clock + interval + it.fetchDur) ∧
    ∀ (st2 : RData) (k c : Nat),
      runLoop name interval deadline (it :: rest) clock nfetch st
        ≠ some (.timeout name, st2, k, c) := by
  have h1 : runLoop name interval deadline (it :: rest) clock nfetch st
      = some (.success addrs,
              { st with status := some "online", ipAddresses := some addrs },
              nfetch + 1, clock + interval + it.fetchDur) := by
    simp [runLoop, hc, hr]
  refine ⟨h1, ?_⟩
  intro st2 k c hcontra
  rw [h1] at hcontra
  simp at hcontra

/-- Witness for C1 at a clock (100) already strictly past the deadline
(20): the fetch reporting "online" still yields success, not timeout. -/
theorem runLoop_online_overrides_deadline_witness :
    (20 : Nat) < 100 ∧
    runLoop "srv" 10 20 [⟨false, okReply "online" ["10.0.0.5"], 0⟩] 100 0
        ⟨"srv", none, none⟩
      = some (.success ["10.0.0.5"],
              ⟨"srv", some "online", some ["10.0.0.5"]⟩, 1, 110) :=
  ⟨by decide,
    (runLoop_online_overrides_deadline "srv" 10 20
      ⟨false, okReply "online" ["10.0.0.5"], 0⟩ [] 100 0 ⟨"srv", none, none⟩
      rfl ["10.0.0.5"] false rfl).1⟩

/-- C2: with the deadline equal to twice the interval (computed once, at
clock 0, before the first sleep), fetches always reporting "provisioning",
the first fetch not outlasting an interval, and a positive total fetch
overhead (as in any real execution), the loop exits with the timeout error
after exactly 2 fetch attempts; the strict after-comparison follows each
classification. -/
theorem runLoop_timeout_after_two_attempts (name : String) (interval : Nat)
    (it1 it2 : Iter) (rest : List Iter) (st : RData)
    (h1c : it1.ctxDone = false) (h2c : it2.ctxDone = false)
    (a1 : List String) (f1 : Bool) (a2 : List String) (f2 : Bool)
    (hr1 : getServerStatus name it1.reply = ⟨"provisioning", a1, f1, none⟩)
    (hr2 : getServerStatus name it2.reply = ⟨"provisioning", a2, f2, none⟩)
    (hd1 : it1.fetchDur ≤ interval)
    (hpos : 0 < it1.fetchDur + it2.fetchDur) :
    runLoop name interval (2 * interval) (it1 :: it2 :: rest) 0 0 st
      = some (.timeout name, { st with status := some "provisioning" }, 2,
              0 + interval + it1.fetchDur + interval + it2.fetchDur) := by
  have hno : ¬ (2 * interval < interval + it1.fetchDur) := by omega
  have hyes : 2 * interval < interval + it1.fetchDur + interval + it2.fetchDur := by
    omega
  simp [runLoop, h1c, h2c, hr1, hr2, hno, hyes]

/-- Witness for C2: interval 10, deadline 20, both fetches report
"provisioning", the second fetch takes 1 time unit: timeout after exactly
2 fetches at clock 21. -/
theorem runLoop_timeout_after_two_attempts_witness :
    runLoop "srv" 10 20
        [⟨false, okReply "provisioning" [], 0⟩, ⟨false, okReply "provisioning" [], 1⟩]
        0 0 ⟨"srv", none, none⟩
      = some (.timeout "srv", ⟨"srv", some "provisioning", none⟩, 2, 21) :=
  runLoop_timeout_after_two_attempts "srv" 10
    ⟨false, okReply "provisioning" [], 0⟩ ⟨false, okReply "provisioning" [], 1⟩
    [] ⟨"srv", none, none⟩ rfl rfl [] false [] false rfl rfl
    (by decide) (by decide)

/-- C3: an iteration whose fetch sees a 404 response returns the not-found
fetch error immediately, whatever the clock and remaining deadline; that
error satisfies `isNotFound`, while the error of every failing fetch whose
reply is not a 404 does not — the two outcomes are distinguishable. -/
theorem runLoop_notfound_immediate (name : String) (interval deadline : Nat)
    (it : Iter) (rest : List Iter) (clock nfetch : Nat) (st : RData)
    (hc : it.ctxDone = false)
    (stext body : String) (dec : Except String ResourceResponse)
    (hrep : it.reply = .response 404 stext body dec) :
    runLoop name interval deadline (it :: rest) clock nfetch st
      = some (.fetchFailed (.notFound name), st, nfetch + 1,
              clock + interval + it.fetchDur) ∧
    (FetchError.notFound name).isNotFound = true ∧
    ∀ (name2 : String) (rep2 : HttpReply) (e2 : FetchError),
      rep2.is404 = false → (getServerStatus name2 rep2).err = some e2 →
      e2.isNotFound = false := by
  refine ⟨?_, rfl, ?_⟩
  · simp [runLoop, hc, hrep, getServerStatus]
  · intro name2 rep2 e2 h404 herr
    cases rep2 with
    | reqError m =>
      simp [getServerStatus] at herr
      rw [← herr]
      rfl
    | transportError m =>
      simp [getServerStatus] at herr
      rw [← herr]
      rfl
    | response code stext2 body2 dec2 =>
      have h404n : ¬ (code = 404) := by
        simpa [HttpReply.is404] using h404
      by_cases h200 : code = 200
      · subst h200
        cases dec2 with
        | error m =>
          simp [getServerStatus] at herr
          rw [← herr]
          rfl
        | ok r =>
          simp [getServerStatus] at herr
      · simp [getServerStatus, h404n, h200] at herr
        rw [← herr]
        rfl

/-- Witness for C3: a concrete 404 reply at clock 0 with deadline 300
still remaining returns the not-found error after one fetch. -/
theorem runLoop_notfound_immediate_witness :
    runLoop "srv" 10 300 [⟨false, .response 404 "404 NF" "" (.error "e"), 5⟩]
        0 0 ⟨"a", none, none⟩
      = some (.fetchFailed (.notFound "srv"), ⟨"a", none, none⟩, 1, 15) :=
  (runLoop_notfound_immediate "srv" 10 300
    ⟨false, .response 404 "404 NF" "" (.error "e"), 5⟩ [] 0 0 ⟨"a", none, none⟩
    rfl "404 NF" "" (.error "e") rfl).1

/-- C4: classification of a successfully fetched status string is by exact
string equality: exactly "online" exits with success, exactly "error"
exits with the provision-failure error, and any other string — case
variants and superstrings included — is treated as pending, the loop
continuing (or exiting with timeout if the strict deadline comparison now
fires). -/
theorem runLoop_exact_classification (name : String) (interval deadline : Nat)
    (it : Iter) (rest : List Iter) (clock nfetch : Nat) (st : RData)
    (hc : it.ctxDone = false)
    (s : String) (addrs : List String) (fl : Bool)
    (hr : getServerStatus name it.reply = ⟨s, addrs, fl, none⟩) :
    (s = "online" →
      runLoop name interval deadline (it :: rest) clock nfetch st
        = some (.success addrs,
                { st with status := some s, ipAddresses := some addrs },
                nfetch + 1, clock + interval + it.fetchDur)) ∧
    (s = "error" →
      runLoop name interval deadline (it :: rest) clock nfetch st
        = some (.provisionFailed name, { st with status := some s },
                nfetch + 1, clock + interval + it.fetchDur)) ∧
    (s ≠ "online" → s ≠ "error" → clock + interval + it.fetchDur ≤ deadline →
      runLoop name interval deadline (it :: rest) clock nfetch st
        = runLoop name interval deadline rest (clock + interval + it.fetchDur)
            (nfetch + 1) { st with status := some s }) ∧
    (s ≠ "online" → s ≠ "error" → deadline < clock + interval + it.fetchDur →
      runLoop name interval deadline (it :: rest) clock nfetch st
        = some (.timeout name, { st with status := some s },
                nfetch + 1, clock + interval + it.fetchDur)) := by
  refine ⟨?_, ?_, ?_, ?_⟩
  · intro hs
    subst hs
    simp [runLoop, hc, hr]
  · intro hs
    subst hs
    simp [runLoop, hc, hr]
  · intro hs1 hs2 hle
    simp [runLoop, hc, hr, hs1, hs2, Nat.not_lt.mpr hle]
  · intro hs1 hs2 hlt
    simp [runLoop, hc, hr, hs1, hs2, hlt]

/-- Witness for C4: the case-variant status "Online" is not "online" and
not "error" and is treated as pending — the loop continues into the next
iteration with the fetched status recorded. -/
theorem runLoop_exact_classification_witness :
    ("Online" : String) ≠ "online" ∧ ("Online" : String) ≠ "error" ∧
    runLoop "srv" 10 300 [⟨false, okReply "Online" [], 0⟩] 0 0 ⟨"srv", none, none⟩
      = runLoop "srv" 10 300 [] 10 1 ⟨"srv", some "Online", none⟩ :=
  ⟨by decide, by decide,
    (runLoop_exact_classification "srv" 10 300 ⟨false, okReply "Online" [], 0⟩
      [] 0 0 ⟨"srv", none, none⟩ rfl "Online" [] false rfl).2.2.1
      (by decide) (by decide) (by decide)⟩

/-- C5: the loop sleeps one full interval before every fetch, the first
included, so when the first fetch reports "online" with a given address
list, the reconciliation returns success carrying exactly that list after
exactly one fetch, the exit clock being one interval plus the fetch
duration past the start. -/
theorem createPoll_first_fetch_online (name responseName : String)
    (interval timeout : Nat) (it : Iter) (rest : List Iter) (st0 : RData)
    (hc : it.ctxDone = false) (addrs : List String) (fl : Bool)
    (hr : getServerStatus name it.reply = ⟨"online", addrs, fl, none⟩) :
    resourceServerCreatePoll name responseName interval timeout (it :: rest) st0
      = some (.success addrs, ⟨responseName, some "online", some addrs⟩,
              1, interval + it.fetchDur) := by
  cases st0
  simp [resourceServerCreatePoll, runLoop, hc, hr]

/-- Witness for C5: the first fetch reports "online" with addresses
["10.0.0.5"]; success with those addresses is returned after exactly one
fetch and a clock of one interval. -/
theorem createPoll_first_fetch_online_witness :
    resourceServerCreatePoll "srv" "srv" 10 300
        [⟨false, okReply "online" ["10.0.0.5"], 0⟩] ⟨"", none, none⟩
      = some (.success ["10.0.0.5"],
              ⟨"srv", some "online", some ["10.0.0.5"]⟩, 1, 10) :=
  createPoll_first_fetch_online "srv" "srv" 10 300
    ⟨false, okReply "online" ["10.0.0.5"], 0⟩ [] ⟨"", none, none⟩
    rfl ["10.0.0.5"] false rfl

/-- C6: when the cancellation signal is set at an iteration, the loop
returns the cancellation outcome with the fetch counter unchanged, and the
result is the same for every possible reply that iteration's fetch could
have produced — the fetch is not invoked. -/
theorem runLoop_cancel_skips_fetch (name : String) (interval deadline : Nat)
    (it : Iter) (rest : List Iter) (clock nfetch : Nat) (st : RData)
    (hc : it.ctxDone = true) :
    runLoop name interval deadline (it :: rest) clock nfetch st
      = some (.cancelled, st, nfetch, clock + interval) ∧
    ∀ rep2 : HttpReply,
      runLoop name interval deadline ({ it with reply := rep2 } :: rest)
          clock nfetch st
        = some (.cancelled, st, nfetch, clock + interval) := by
  constructor
  · simp [runLoop, hc]
  · intro rep2
    simp [runLoop, hc]

/-- Witness for C6: cancellation at the first iteration returns the
cancellation outcome with zero fetches issued, even though the reply the
fetch would have seen is a transport failure. -/
theorem runLoop_cancel_skips_fetch_witness :
    runLoop "srv" 10 300 [⟨true, .transportError "boom", 0⟩] 0 0 ⟨"srv", none, none⟩
      = some (.cancelled, ⟨"srv", none, none⟩, 0, 10) :=
  (runLoop_cancel_skips_fetch "srv" 10 300 ⟨true, .transportError "boom", 0⟩
    [] 0 0 ⟨"srv", none, none⟩ rfl).1

/-- C7: an iteration whose fetch reports "error" exits with the
provision-failure error on that same iteration, one fetch having been
issued on it; and after any iteration whose fetch reports a terminal
status ("online" or "error") the rest of the script is never consulted —
no further fetch is issued. -/
theorem runLoop_error_terminal (name : String) (interval deadline : Nat)
    (it : Iter) (rest : List Iter) (clock nfetch : Nat) (st : RData)
    (hc : it.ctxDone = false)
    (s : String) (addrs : List String) (fl : Bool)
    (hr : getServerStatus name it.reply = ⟨s, addrs, fl, none⟩) :
    (s = "error" →
      runLoop name interval deadline (it :: rest) clock nfetch st
        = some (.provisionFailed name, { st with status := some s },
                nfetch + 1, clock + interval + it.fetchDur)) ∧
    (s = "online" ∨ s = "error" → ∀ rest' : List Iter,
      runLoop name interval deadline (it :: rest) clock nfetch st
        = runLoop name interval deadline (it :: rest') clock nfetch st) := by
  constructor
  · intro hs
    subst hs
    simp [runLoop, hc, hr]
  · intro hs rest'
    rcases hs with hs | hs <;> subst hs <;> simp [runLoop, hc, hr]

/-- Witness for C7: a first fetch reporting "error" yields the
provision-failure exit with exactly one fetch issued. -/
theorem runLoop_error_terminal_witness :
    runLoop "srv" 10 300 [⟨false, okReply "error" [], 0⟩] 0 0 ⟨"srv", none, none⟩
      = some (.provisionFailed "srv", ⟨"srv", some "error", none⟩, 1, 10) :=
  (runLoop_error_terminal "srv" 10 300 ⟨false, okReply "error" [], 0⟩
    [] 0 0 ⟨"srv", none, none⟩ rfl "error" [] false rfl).1 rfl

/-- C8 counterexample: a run ending in timeout — a non-success outcome —
in which the loop has nevertheless written the fetched "provisioning"
status into the persisted `status` field (initially unset), refuting the
claim that no field of persisted resource state is written on non-success
outcomes. -/
theorem runLoop_nonsuccess_write_counterexample :
    resourceServerCreatePoll "srv" "srv" 10 20
        [⟨false, okReply "provisioning" [], 0⟩,
         ⟨false, okReply "provisioning" [], 1⟩]
        ⟨"", none, none⟩
      = some (.timeout "srv", ⟨"srv", some "provisioning", none⟩, 2, 21) ∧
    (Outcome.timeout "srv").isSuccess = false ∧
    (⟨"srv", some "provisioning", none⟩ : RData).status ≠
      ({ (⟨"", none, none⟩ : RData) with id := "srv" }).status := by
  refine ⟨by decide, rfl, by decide⟩

/-- C8 amended: the loop writes the fetched status string into persisted
state on every iteration whose fetch succeeds — including iterations whose
run ends in a pending continuation, provision failure, or timeout — and
beyond that writes nothing: the resource id is never changed, the address
list is changed only on the success outcome, and any change to the status
field carries the status string of some successful fetch of the run. -/
theorem runLoop_write_effects (name : String) (interval deadline : Nat)
    (script : List Iter) (clock nfetch : Nat) (st : RData)
    (o : Outcome) (st' : RData) (k c : Nat)
    (h : runLoop name interval deadline script clock nfetch st = some (o, st', k, c)) :
    st'.id = st.id ∧
    (o.isSuccess = false → st'.ipAddresses = st.ipAddresses) ∧
    (st'.status = st.status ∨
      ∃ it ∈ script, ∃ s a f, getServerStatus name it.reply = ⟨s, a, f, none⟩ ∧
        st'.status = some s) :=
  runLoop_state_frame name interval deadline script clock nfetch st o st' k c h

/-- Witness for C8 amended: a run failing on a transport error leaves the
whole state unchanged; its status change is vacuous. -/
theorem runLoop_write_effects_witness :
    runLoop "srv" 10 300 [⟨false, .transportError "x", 2⟩] 0 0
        ⟨"a", some "q", some ["b"]⟩
      = some (.fetchFailed (.transportErr "x"), ⟨"a", some "q", some ["b"]⟩, 1, 12) ∧
    ((⟨"a", some "q", some ["b"]⟩ : RData).id = (⟨"a", some "q", some ["b"]⟩ : RData).id ∧
     ((Outcome.fetchFailed (.transportErr "x")).isSuccess = false →
       (⟨"a", some "q", some ["b"]⟩ : RData).ipAddresses =
         (⟨"a", some "q", some ["b"]⟩ : RData).ipAddresses) ∧
     ((⟨"a", some "q", some ["b"]⟩ : RData).status =
        (⟨"a", some "q", some ["b"]⟩ : RData).status ∨
      ∃ it ∈ [(⟨false, .transportError "x", 2⟩ : Iter)], ∃ s a f,
        getServerStatus "srv" it.reply = ⟨s, a, f, none⟩ ∧
        (⟨"a", some "q", some ["b"]⟩ : RData).status = some s)) :=
  ⟨by decide,
    runLoop_write_effects "srv" 10 300 [⟨false, .transportError "x", 2⟩] 0 0
      ⟨"a", some "q", some ["b"]⟩ (.fetchFailed (.transportErr "x"))
      ⟨"a", some "q", some ["b"]⟩ 1 12 (by decide)⟩

/-- C9 counterexample: a reconciliation ending in timeout whose final
persisted state still carries the non-empty resource identity "srv1" set
before the loop — the identity is retained, not discarded, refuting the
claim that on failure/timeout the persisted resource identity is not
retained. -/
theorem createPoll_id_retained_counterexample :
    resourceServerCreatePoll "srv1" "srv1" 10 20
        [⟨false, okReply "provisioning" [], 0⟩,
         ⟨false, okReply "provisioning" [], 1⟩]
        ⟨"", none, none⟩
      = some (.timeout "srv1", ⟨"srv1", some "provisioning", none⟩, 2, 21) ∧
    (⟨"srv1", some "provisioning", none⟩ : RData).id ≠ "" :=
  ⟨by decide, by decide⟩

/-- C9 amended: the handle returned by the create response is written into
the persisted resource identity before the polling loop starts and is
retained on every outcome of the loop, failure and timeout included; the
code never clears the identity, leaving any discarding of the failed
resource to the surrounding framework. -/
theorem createPoll_id_always_retained (name responseName : String)
    (interval timeout : Nat) (script : List Iter) (st0 : RData)
    (o : Outcome) (st' : RData) (k c : Nat)
    (h : resourceServerCreatePoll name responseName interval timeout script st0
          = some (o, st', k, c)) :
    st'.id = responseName :=
  (runLoop_state_frame name interval timeout script 0 0
    { st0 with id := responseName } o st' k c h).1

/-- Witness for C9 amended: a run ending in timeout retains the identity
"web1" written before the loop. -/
theorem createPoll_id_always_retained_witness :
    resourceServerCreatePoll "srv" "web1" 10 20
        [⟨false, okReply "provisioning" [], 0⟩,
         ⟨false, okReply "provisioning" [], 1⟩]
        ⟨"", none, none⟩
      = some (.timeout "srv", ⟨"web1", some "provisioning", none⟩, 2, 21) ∧
    (⟨"web1", some "provisioning", none⟩ : RData).id = "web1" :=
  ⟨by decide,
    createPoll_id_always_retained "srv" "web1" 10 20
      [⟨false, okReply "provisioning" [], 0⟩, ⟨false, okReply "provisioning" [], 1⟩]
      ⟨"", none, none⟩ (.timeout "srv") ⟨"web1", some "provisioning", none⟩ 2 21
      (by decide)⟩

/-- C10: every call to `getServerStatus` that returns a non-nil error —
request-construction failure, transport failure, 404, non-200 status, or
decode failure — returns the empty status string, the nil (empty) address
list, and a true floating-IP flag; observed status and addresses come only
with a nil error. -/
theorem getServerStatus_error_zero_values (name : String) (reply : HttpReply)
    (h : (getServerStatus name reply).err ≠ none) :
    (getServerStatus name reply).status = "" ∧
    (getServerStatus name reply).addrs = [] ∧
    (getServerStatus name reply).floating = true := by
  cases reply with
  | reqError m => simp [getServerStatus]
  | transportError m => simp [getServerStatus]
  | response code stext body dec =>
    by_cases h404 : code = 404
    · simp [getServerStatus, h404]
    · by_cases h200 : code = 200
      · subst h200
        cases dec with
        | error m => simp [getServerStatus]
        | ok r => simp [getServerStatus] at h
      · simp [getServerStatus, h404, h200]

/-- Witness for C10: a transport failure yields a non-nil error together
with the empty status, empty addresses and a true floating flag. -/
theorem getServerStatus_error_zero_values_witness :
    (getServerStatus "srv" (.transportError "boom")).err ≠ none ∧
    ((getServerStatus "srv" (.transportError "boom")).status = "" ∧
     (getServerStatus "srv" (.transportError "boom")).addrs = [] ∧
     (getServerStatus "srv" (.transportError "boom")).floating = true) :=
  ⟨by decide,
    getServerStatus_error_zero_values "srv" (.transportError "boom") (by decide)⟩

end Faxter
